import Mathlib

/-!
Verification development for the Smart Jam real-time note-segmentation and
loop-synchronized generation pipeline.

The definitions below are a shallow embedding of the JavaScript source:
the frame-loop and its helpers in the main application component
(`src/unnamed/part_000`), and `src/src/MagentaManager.js`.  JavaScript
numbers are modelled as rationals (ℚ) for times, energies and clarities,
and integers (ℤ) for pitches and grid positions.  `Math.round` is
`fun x => ⌊x + 1/2⌋` (round half toward +∞), `Math.floor` is `Int.floor`,
`Math.ceil` is `Int.ceil`, and the JavaScript `%` operator (remainder with
the sign of the dividend) is `Int.tmod`.  The only floating-point
transcendental in the pipeline, `Math.log2` in the frequency-to-MIDI
conversion, is modelled over ℝ with `Real.logb 2`.
-/

/-- A committed note, as built by the frame loop of `part_000`
(lines 521-527) and by `handleNoteEnd` (lines 283-289).  The notes the
loop commits carry no `velocity` field (it is `undefined` in JS), so
`velocity` is an `Option`. -/
structure Note where
  pitch : Int
  startPosition : Int
  endPosition : Int
  startTime : Rat
  endTime : Rat
  velocity : Option Int := none
deriving DecidableEq, Repr

/-- Commit of a finished note into the `userNotes` store, exactly the
`setUserNotes` updater of `part_000` (lines 294-296 in `handleNoteEnd`,
identically lines 531-533 in the frame loop):
Add mode skips the append when a note with the same
`(startPosition, pitch)` exists; Replace mode first removes every note at
the incoming `startPosition`. -/
def commitNote (isAddMode : Bool) (prev : List Note) (note : Note) : List Note :=
  if isAddMode then
    if prev.any (fun n => n.startPosition == note.startPosition && n.pitch == note.pitch)
      then prev
      else prev ++ [note]
  else
    prev.filter (fun n => !(n.startPosition == note.startPosition)) ++ [note]

/-- Tail of the note-combining accumulator loop of `part_000`
(lines 435-451): `cur` is the note currently being extended; an input note
with the same pitch extends `cur`'s `endTime`/`endPosition`, a different
pitch flushes `cur` and starts over from the input note. -/
def combineGo (cur : Note) : List Note → List Note
  | [] => [cur]
  | n :: rest =>
      if n.pitch == cur.pitch then
        combineGo { cur with endTime := n.endTime, endPosition := n.endPosition } rest
      else
        cur :: combineGo n rest

/-- The NoteCombiner of `part_000` (lines 432-452): merges consecutive
same-pitch notes, starting with an empty accumulator (`currentNote = null`). -/
def combineNotes : List Note → List Note
  | [] => []
  | n :: rest => combineGo n rest

/-- `Math.round` of JavaScript: round half toward positive infinity. -/
def jsRound (x : Rat) : Int := ⌊x + 1/2⌋

/-- The JavaScript `%` operator on integers: remainder with the sign of
the dividend (truncated division). -/
def jsMod (a n : Int) : Int := Int.tmod a n

/-- `secondsPerSubdivision` as computed throughout `part_000`
(e.g. lines 209-210): `(60 / bpm) / gridDivision`. -/
def secondsPerCell (bpm gridDivision : Rat) : Rat := 60 / bpm / gridDivision

/-- Total number of grid cells: `numberOfBars * BEATS_PER_BAR * gridDivision`
with `BEATS_PER_BAR = 4` (`part_000` line 212 / line 412). -/
def totalCells (numberOfBars gridDivision : Int) : Int := numberOfBars * 4 * gridDivision

/-- The wraparound operation: `position % totalCells` with the JavaScript
`%` (`part_000` line 212). -/
def wrap (total p : Int) : Int := jsMod p total

/-- `calculatePosition` of `part_000` (lines 208-213):
`Math.round(time / secondsPerSubdivision) % (numberOfBars * 4 * gridDivision)`. -/
def calculatePosition (bpm : Rat) (numberOfBars gridDivision : Int) (time : Rat) : Int :=
  wrap (totalCells numberOfBars gridDivision)
    (jsRound (time / secondsPerCell bpm (gridDivision : Rat)))

/-- Modelled from the spec (§4.1 GridClock, for the refinement half of the
position claim): `positionOf(t) = round(t / secondsPerCell) mod totalCells`
with `secondsPerCell = (60/bpm) / gridDivision` and
`totalCells = bars × 4 × gridDivision`, with mathematical (nonnegative)
`mod`. -/
def positionOfSpec (bpm : Rat) (numberOfBars gridDivision : Int) (time : Rat) : Int :=
  jsRound (time / (60 / bpm / (gridDivision : Rat))) % (numberOfBars * 4 * gridDivision)

/-- The un-normalized position used by the frame loop (`part_000` line 411):
`Math.floor(relativeTime / (60 / bpm / gridDivision))`. -/
def loopPositionOf (bpm gridDivision : Rat) (t : Rat) : Int :=
  ⌊t / (60 / bpm / gridDivision)⌋

/-- `normalizedPosition` of the frame loop (`part_000` line 413). -/
def normalizedPosition (bpm : Rat) (numberOfBars gridDivision : Int) (t : Rat) : Int :=
  jsMod (loopPositionOf bpm (gridDivision : Rat) t) (totalCells numberOfBars gridDivision)

/-- The loop-boundary test of `part_000` (line 416): the boundary fires on
a frame iff the frame's normalized position is `0` and the stored
`lastLoopEndPosition` is `totalPositions - 1` or the `-1` sentinel. -/
def boundaryFires (total last p : Int) : Bool :=
  p == 0 && (last == total - 1 || last == -1)

/-- One frame of the loop-boundary detector: the fired flag, and the new
stored `lastLoopEndPosition` (`part_000` line 510 updates it to the current
normalized position on every frame). -/
def boundaryStep (total last p : Int) : Bool × Int :=
  (boundaryFires total last p, p)

/-- The detector run over a list of per-frame normalized positions,
returning the fire flag of each frame.  The initial `last` is `-1`
(`part_000` line 350). -/
def boundaryRun (total : Int) (last : Int) : List Int → List Bool
  | [] => []
  | p :: ps => boundaryFires total last p :: boundaryRun total p ps

-- sanity examples (concrete evaluation of the embedding)
example : calculatePosition 120 4 8 0 = 0 := by
  norm_num [calculatePosition, wrap, jsMod, jsRound, totalCells, secondsPerCell]
example : calculatePosition 120 4 8 (1/16) = 1 := by
  norm_num [calculatePosition, wrap, jsMod, jsRound, totalCells, secondsPerCell] <;> decide
example : normalizedPosition 120 4 8 8 = 0 := by
  norm_num [normalizedPosition, loopPositionOf, jsMod, totalCells] <;> decide
example : normalizedPosition 120 4 8 (127/16) = 127 := by
  norm_num [normalizedPosition, loopPositionOf, jsMod, totalCells] <;> decide
example : boundaryRun 128 (-1) [0, 0, 1] = [true, false, false] := by decide
example :
    (combineNotes [⟨60, 0, 1, 0, 1, none⟩, ⟨60, 1, 2, 1, 2, none⟩, ⟨64, 2, 3, 2, 3, none⟩]).length
      = 2 := by decide

/-- For a nonnegative dividend and nonnegative divisor the JavaScript
remainder agrees with the mathematical (euclidean) one. -/
theorem jsMod_eq_emod {a n : Int} (ha : 0 ≤ a) (hn : 0 ≤ n) : jsMod a n = a % n :=
  Int.tmod_eq_emod ha hn

theorem jsRound_nonneg {x : Rat} (hx : 0 ≤ x) : 0 ≤ jsRound x :=
  Int.floor_nonneg.mpr (by linarith)

theorem jsRound_add_int (x : Rat) (z : Int) : jsRound (x + z) = jsRound x + z := by
  unfold jsRound
  rw [show x + (z : Rat) + 1/2 = x + 1/2 + (z : Rat) by ring, Int.floor_add_int]

/-- C7: `calculatePosition` computes exactly the spec's GridClock formula
`round(t / secondsPerCell) mod totalCells` with
`secondsPerCell = (60/bpm)/gridDivision` and
`totalCells = bars × 4 × gridDivision`; the wrap operation is idempotent
on (nonnegative) positions; and the position function is periodic with
period `totalCells × secondsPerCell`. -/
theorem c7_gridClock_positionOf (bpm : Rat) (bars gd : Int) (t : Rat)
    (hbpm : 0 < bpm) (hbars : 0 < bars) (hgd : 0 < gd) (ht : 0 ≤ t) :
    calculatePosition bpm bars gd t = positionOfSpec bpm bars gd t ∧
    (∀ p : Int, 0 ≤ p →
      wrap (totalCells bars gd) (wrap (totalCells bars gd) p) = wrap (totalCells bars gd) p) ∧
    calculatePosition bpm bars gd (t + totalCells bars gd * secondsPerCell bpm (gd : Rat))
      = calculatePosition bpm bars gd t := by
  have hgdQ : (0 : Rat) < (gd : Rat) := by exact_mod_cast hgd
  have hspc : 0 < secondsPerCell bpm (gd : Rat) := by
    unfold secondsPerCell; positivity
  have htot : (0 : Int) < totalCells bars gd := by
    unfold totalCells; positivity
  refine ⟨?_, ?_, ?_⟩
  · unfold calculatePosition positionOfSpec wrap totalCells secondsPerCell
    exact jsMod_eq_emod (jsRound_nonneg (by positivity)) (by positivity)
  · intro p hp
    unfold wrap
    rw [jsMod_eq_emod hp htot.le,
        jsMod_eq_emod (Int.emod_nonneg p htot.ne') htot.le]
    exact Int.emod_emod_of_dvd p dvd_rfl
  · unfold calculatePosition wrap
    have hdiv : (t + (totalCells bars gd : Rat) * secondsPerCell bpm (gd : Rat)) /
        secondsPerCell bpm (gd : Rat)
        = t / secondsPerCell bpm (gd : Rat) + (totalCells bars gd : Rat) := by
      field_simp
    rw [hdiv, jsRound_add_int]
    have h0 : 0 ≤ jsRound (t / secondsPerCell bpm (gd : Rat)) :=
      jsRound_nonneg (by positivity)
    rw [jsMod_eq_emod (by omega) htot.le, jsMod_eq_emod h0 htot.le,
        show jsRound (t / secondsPerCell bpm (gd : Rat)) + totalCells bars gd
            = jsRound (t / secondsPerCell bpm (gd : Rat)) + totalCells bars gd * 1 by ring,
        Int.add_mul_emod_self_left]

/-- Witness for C7: concrete periodicity instance at
`bpm = 120`, `bars = 4`, `gridDivision = 8`, `t = 1/16`. -/
theorem c7_gridClock_positionOf_witness :
    calculatePosition 120 4 8 (1/16 + totalCells 4 8 * secondsPerCell 120 (8 : Rat))
      = calculatePosition 120 4 8 (1/16) :=
  (c7_gridClock_positionOf 120 4 8 (1/16) (by norm_num) (by norm_num) (by norm_num)
    (by norm_num)).2.2

/-- C2: the loop-boundary detector fires on a frame precisely when the
frame's normalized position is `0` and the stored last position is
`totalCells - 1` (or the `-1` uninitialized sentinel); the stored last
position becomes the current frame's position whether or not the boundary
fired; and for two consecutive frames that both sample position `0` the
second never fires (for any grid with at least two cells). -/
theorem c2_loop_boundary (total last p : Int) (ps : List Int) (htotal : 2 ≤ total) :
    (boundaryFires total last p = true ↔ p = 0 ∧ (last = total - 1 ∨ last = -1)) ∧
    boundaryRun total last (p :: ps) = boundaryFires total last p :: boundaryRun total p ps ∧
    boundaryRun total last (0 :: 0 :: ps)
      = boundaryFires total last 0 :: false :: boundaryRun total 0 ps := by
  refine ⟨?_, rfl, ?_⟩
  · simp [boundaryFires]
  · have h2 : boundaryFires total 0 0 = false := by
      simp only [boundaryFires]
      have : ¬ ((0 : Int) = total - 1) := by omega
      simp [this]
    rw [boundaryRun, boundaryRun, h2]

/-- Witness for C2: a concrete two-frame resampling of position 0 on the
128-cell default grid fires at most on the first of the two frames. -/
theorem c2_loop_boundary_witness :
    boundaryRun 128 127 (0 :: 0 :: [1])
      = boundaryFires 128 127 0 :: false :: boundaryRun 128 0 [1] :=
  (c2_loop_boundary 128 127 0 [1] (by norm_num)).2.2

/-- C6: under Add mode the commit appends unless a note with identical
`(startPosition, pitch)` already exists (then the store is unchanged);
under Replace mode it removes all notes at the incoming `startPosition`
regardless of pitch and appends the incoming note; every note of the
result is either an untouched note of the input store or the incoming
note (no in-place mutation). -/
theorem c6_commit_policies (prev : List Note) (note : Note) :
    ((∃ n ∈ prev, n.startPosition = note.startPosition ∧ n.pitch = note.pitch) →
        commitNote true prev note = prev) ∧
    ((¬ ∃ n ∈ prev, n.startPosition = note.startPosition ∧ n.pitch = note.pitch) →
        commitNote true prev note = prev ++ [note]) ∧
    (commitNote false prev note
      = prev.filter (fun n => !(n.startPosition == note.startPosition)) ++ [note]) ∧
    (∀ m ∈ commitNote false prev note, m.startPosition = note.startPosition → m = note) ∧
    (∀ m ∈ prev, m.startPosition ≠ note.startPosition → m ∈ commitNote false prev note) ∧
    (∀ mode : Bool, ∀ m ∈ commitNote mode prev note, m ∈ prev ∨ m = note) := by
  refine ⟨?_, ?_, rfl, ?_, ?_, ?_⟩
  · intro h
    simp only [commitNote, if_true]
    rw [if_pos]
    simp only [List.any_eq_true, Bool.and_eq_true, beq_iff_eq]
    obtain ⟨n, hn, h1, h2⟩ := h
    exact ⟨n, hn, h1, h2⟩
  · intro h
    simp only [commitNote, if_true]
    rw [if_neg]
    simp only [List.any_eq_true, Bool.and_eq_true, beq_iff_eq]
    intro ⟨n, hn, h1, h2⟩
    exact h ⟨n, hn, h1, h2⟩
  · intro m hm heq
    simp only [commitNote, Bool.false_eq_true, if_false, List.mem_append,
      List.mem_filter, Bool.not_eq_true', beq_eq_false_iff_ne, ne_eq,
      List.mem_singleton] at hm
    rcases hm with ⟨_, hne⟩ | h
    · exact absurd heq hne
    · exact h
  · intro m hm hne
    simp only [commitNote, Bool.false_eq_true, if_false, List.mem_append,
      List.mem_filter, Bool.not_eq_true', beq_eq_false_iff_ne, ne_eq]
    exact Or.inl ⟨hm, hne⟩
  · intro mode m hm
    rcases mode with _ | _
    · simp only [commitNote, Bool.false_eq_true, if_false, List.mem_append,
        List.mem_filter, List.mem_singleton] at hm
      rcases hm with ⟨h, _⟩ | h
      · exact Or.inl h
      · exact Or.inr h
    · simp only [commitNote, if_true] at hm
      by_cases hc : prev.any
          (fun n => n.startPosition == note.startPosition && n.pitch == note.pitch) = true
      · rw [if_pos hc] at hm
        exact Or.inl hm
      · rw [if_neg hc] at hm
        rcases List.mem_append.mp hm with h | h
        · exact Or.inl h
        · exact Or.inr (List.mem_singleton.mp h)

/-- Witness for C6: concrete Add-mode duplicate skip and Replace-mode
position-clearing commit. -/
theorem c6_commit_policies_witness :
    commitNote true [⟨60, 0, 1, 0, 1, none⟩] ⟨60, 0, 2, 0, 2, none⟩ = [⟨60, 0, 1, 0, 1, none⟩] ∧
    commitNote false [⟨60, 0, 1, 0, 1, none⟩] ⟨64, 0, 2, 0, 2, none⟩ = [⟨64, 0, 2, 0, 2, none⟩] := by
  constructor
  · exact (c6_commit_policies [⟨60, 0, 1, 0, 1, none⟩] ⟨60, 0, 2, 0, 2, none⟩).1
      ⟨⟨60, 0, 1, 0, 1, none⟩, by simp, rfl, rfl⟩
  · have h := (c6_commit_policies [⟨60, 0, 1, 0, 1, none⟩] ⟨64, 0, 2, 0, 2, none⟩).2.2.1
    rw [h]
    decide

theorem combineGo_length (l : List Note) : ∀ cur : Note,
    (combineGo cur l).length ≤ l.length + 1 := by
  induction l with
  | nil => intro cur; simp [combineGo]
  | cons n rest ih =>
      intro cur
      rw [combineGo]
      by_cases hp : (n.pitch == cur.pitch) = true
      · rw [if_pos hp]
        exact le_trans (ih _) (by simp)
      · rw [if_neg hp]
        simpa using ih n

theorem combineGo_head_pitch (l : List Note) : ∀ cur y : Note,
    (combineGo cur l).head? = some y → y.pitch = cur.pitch := by
  induction l with
  | nil =>
      intro cur y h
      simp [combineGo] at h
      rw [← h]
  | cons n rest ih =>
      intro cur y h
      rw [combineGo] at h
      by_cases hp : (n.pitch == cur.pitch) = true
      · rw [if_pos hp] at h
        have h2 := ih { cur with endTime := n.endTime, endPosition := n.endPosition } y h
        simpa using h2
      · rw [if_neg hp] at h
        simp only [List.head?_cons, Option.some.injEq] at h
        rw [← h]

theorem combineGo_chain (l : List Note) : ∀ cur : Note,
    List.Chain' (fun a b => a.pitch ≠ b.pitch) (combineGo cur l) := by
  induction l with
  | nil => intro cur; simp [combineGo]
  | cons n rest ih =>
      intro cur
      rw [combineGo]
      by_cases hp : (n.pitch == cur.pitch) = true
      · rw [if_pos hp]
        exact ih _
      · rw [if_neg hp]
        rw [List.chain'_cons']
        refine ⟨?_, ih n⟩
        intro y hy
        have := combineGo_head_pitch rest n y hy
        rw [this]
        intro hcontra
        exact hp (beq_iff_eq.mpr hcontra.symm)

/-- C9: the note combiner never lengthens the sequence, never leaves two
adjacent entries with the same pitch, and merges
`[pitch 60, pitch 60, pitch 64]` into exactly 2 notes (the first
accumulating the second's `endTime`/`endPosition`). -/
theorem c9_noteCombiner (l : List Note) :
    (combineNotes l).length ≤ l.length ∧
    List.Chain' (fun a b => a.pitch ≠ b.pitch) (combineNotes l) ∧
    combineNotes [⟨60, 0, 1, 0, 1, none⟩, ⟨60, 1, 2, 1, 2, none⟩, ⟨64, 2, 3, 2, 3, none⟩]
      = [⟨60, 0, 2, 0, 2, none⟩, ⟨64, 2, 3, 2, 3, none⟩] := by
  refine ⟨?_, ?_, by decide⟩
  · cases l with
    | nil => simp [combineNotes]
    | cons n rest =>
        rw [combineNotes]
        simpa using combineGo_length rest n
  · cases l with
    | nil => simp [combineNotes]
    | cons n rest =>
        rw [combineNotes]
        exact combineGo_chain rest n

/-- A note in the Magenta exchange format (`MagentaManager.js`):
`{pitch, startTime, endTime, velocity}`. -/
structure MagNote where
  pitch : Int
  startTime : Rat
  endTime : Rat
  velocity : Int := 100
deriving DecidableEq, Repr

/-- A note as returned by the external MusicRNN model
(`MagentaManager.js` lines 110-118): quantized step indices plus an
optional velocity (`note.velocity || 100` treats both `undefined` and `0`
as absent). -/
structure RnnNote where
  pitch : Int
  quantizedStartStep : Int
  quantizedEndStep : Int
  velocity : Option Int := none
deriving DecidableEq, Repr

/-- `validNoteRange.min` of `MagentaManager.js` (line 10): C3. -/
def validNoteRangeMin : Int := 48

/-- `validNoteRange.max` of `MagentaManager.js` (line 11): B5. -/
def validNoteRangeMax : Int := 83

/-- The range filter of `generateResponse` (`MagentaManager.js`
lines 64-71): keep only notes whose pitch lies inside the valid range. -/
def filterValidNotes (notes : List MagNote) : List MagNote :=
  notes.filter fun n =>
    decide (validNoteRangeMin ≤ n.pitch) && decide (n.pitch ≤ validNoteRangeMax)

/-- The per-note format conversion of `generateResponse`
(`MagentaManager.js` lines 79-84): identity on pitch and times, velocity
forced to the default 100. -/
def toMagentaNote (n : MagNote) : MagNote :=
  { n with velocity := 100 }

/-- `secondsPerStep` of the response conversion (`MagentaManager.js`
line 112): `60 / (120 * 4)`, hardcoded 120 BPM, 4 steps per quarter. -/
def secondsPerStep : Rat := 60 / (120 * 4)

/-- The response-note conversion of `generateResponse`
(`MagentaManager.js` lines 110-119). -/
def convertRnnNote (n : RnnNote) : MagNote :=
  { pitch := n.pitch
    startTime := n.quantizedStartStep * secondsPerStep
    endTime := n.quantizedEndStep * secondsPerStep
    velocity := match n.velocity with
      | none => 100
      | some v => if v = 0 then 100 else v }

/-- `generateResponse` of `MagentaManager.js` (lines 56-127), with the
external MusicRNN call abstracted as `model` (quantization and the network
are externals).  Returns `Except` for the not-initialized throw, and pairs
the result with the number of model invocations performed.  If no note
survives the range filter it resolves to `[]` without calling the model
(lines 73-76). -/
def generateResponse (isInitialized : Bool) (model : List MagNote → List RnnNote)
    (notes : List MagNote) : Except Unit (List MagNote × Nat) :=
  if !isInitialized then .error ()
  else
    let validNotes := filterValidNotes notes
    if validNotes.isEmpty then .ok ([], 0)
    else .ok ((model (validNotes.map toMagentaNote)).map convertRnnNote, 1)

/-- C10: when every input pitch lies outside `[48, 83]`, an initialized
`generateResponse` resolves to the empty list with zero model invocations,
for every possible model; and in general the range filter only drops
notes — every survivor is an unmodified member of the input with its
pitch inside the valid range (no clamping). -/
theorem c10_generateResponse_out_of_range (notes : List MagNote)
    (h : ∀ n ∈ notes, n.pitch < validNoteRangeMin ∨ validNoteRangeMax < n.pitch) :
    (∀ model : List MagNote → List RnnNote,
        generateResponse true model notes = .ok ([], 0)) ∧
    (∀ m ∈ filterValidNotes notes,
        m ∈ notes ∧ validNoteRangeMin ≤ m.pitch ∧ m.pitch ≤ validNoteRangeMax) := by
  constructor
  · intro model
    have hempty : filterValidNotes notes = [] := by
      rw [filterValidNotes, List.filter_eq_nil]
      intro n hn
      rcases h n hn with h1 | h1 <;>
        simp [decide_eq_true_eq, not_le.mpr h1]
    simp [generateResponse, hempty]
  · intro m hm
    rw [filterValidNotes, List.mem_filter] at hm
    obtain ⟨h1, h2⟩ := hm
    simp only [Bool.and_eq_true, decide_eq_true_eq] at h2
    exact ⟨h1, h2.1, h2.2⟩

/-- Witness for C10: a two-note input with pitches 40 and 90 (both
outside `[48, 83]`) resolves to `([], 0)` under a model that would
otherwise return a note. -/
theorem c10_generateResponse_out_of_range_witness :
    generateResponse true (fun _ => [⟨60, 0, 4, none⟩])
        [⟨40, 0, 1, 100⟩, ⟨90, 1, 2, 100⟩] = .ok ([], 0) :=
  (c10_generateResponse_out_of_range [⟨40, 0, 1, 100⟩, ⟨90, 1, 2, 100⟩] (by decide)).1
    (fun _ => [⟨60, 0, 4, none⟩])

/-- The AI-response remapping in the frame loop's success handler
(`part_000` lines 475-490): `secondsPerSubdivision = (60/bpm)/SUBDIVISIONS`
with the component constant `SUBDIVISIONS = 8` (line 83) — not the
configured `gridDivision` — `Math.floor` for the start position,
`Math.ceil` for the end position, and no wraparound; pitch, times and
velocity are passed through.  `bpm` is the value captured by the loop
closure when the jam started. -/
def convertResponseNote (bpm : Rat) (n : MagNote) : Note :=
  { pitch := n.pitch
    startPosition := ⌊n.startTime / secondsPerCell bpm 8⌋
    endPosition := ⌈n.endTime / secondsPerCell bpm 8⌉
    startTime := n.startTime
    endTime := n.endTime
    velocity := some n.velocity }

/-- Counterexample to C8: with the grid configured to 16th notes
(`gridDivision = 4`, a supported option), a response note starting at
0.5 s is remapped to start position 8 by the code (which divides by the
hardcoded 8-subdivision cell), while the GridClock position formula of the
rest of the pipeline (`calculatePosition` with the configured division)
places 0.5 s at position 4. -/
theorem c8_counterexample :
    (convertResponseNote 120 ⟨60, 1/2, 3/4, 100⟩).startPosition
      ≠ calculatePosition 120 4 4 (1/2) := by
  have h1 : (convertResponseNote 120 ⟨60, 1/2, 3/4, 100⟩).startPosition = 8 := by
    show (⌊(1/2 : Rat) / secondsPerCell 120 8⌋ : Int) = 8
    norm_num [secondsPerCell]
  have h2 : calculatePosition 120 4 4 (1/2) = 4 := by
    have : jsRound ((1/2 : Rat) / secondsPerCell 120 ((4 : Int) : Rat)) = 4 := by
      norm_num [jsRound, secondsPerCell]
    simp only [calculatePosition, wrap, this]
    decide
  rw [h1, h2]
  decide

/-- C8 (amended): the response remapping preserves pitch, times and
velocity, and maps the note's time span onto the cell span
`[floor(start/spc), ceil(end/spc)]` of a grid with the hardcoded
subdivision 8 (`spc = (60/bpm)/8`, irrespective of the configured
`gridDivision`, with no wraparound): the resulting cell span always covers
the note's time span, and the positions equal the closed forms
`⌊start·bpm·8/60⌋` and `⌈end·bpm·8/60⌉`. -/
theorem c8_response_remap (bpm : Rat) (n : MagNote) (hbpm : 0 < bpm) :
    (convertResponseNote bpm n).pitch = n.pitch ∧
    (convertResponseNote bpm n).startTime = n.startTime ∧
    (convertResponseNote bpm n).endTime = n.endTime ∧
    (convertResponseNote bpm n).velocity = some n.velocity ∧
    ((convertResponseNote bpm n).startPosition : Rat) * secondsPerCell bpm 8 ≤ n.startTime ∧
    n.endTime ≤ ((convertResponseNote bpm n).endPosition : Rat) * secondsPerCell bpm 8 ∧
    (convertResponseNote bpm n).startPosition = ⌊n.startTime * bpm * 8 / 60⌋ ∧
    (convertResponseNote bpm n).endPosition = ⌈n.endTime * bpm * 8 / 60⌉ := by
  have hspc : 0 < secondsPerCell bpm 8 := by
    unfold secondsPerCell; positivity
  refine ⟨rfl, rfl, rfl, rfl, ?_, ?_, ?_, ?_⟩
  · show ((⌊n.startTime / secondsPerCell bpm 8⌋ : Rat)) * secondsPerCell bpm 8 ≤ n.startTime
    calc ((⌊n.startTime / secondsPerCell bpm 8⌋ : Rat)) * secondsPerCell bpm 8
        ≤ n.startTime / secondsPerCell bpm 8 * secondsPerCell bpm 8 :=
          mul_le_mul_of_nonneg_right (Int.floor_le _) hspc.le
      _ = n.startTime := div_mul_cancel₀ _ hspc.ne'
  · show n.endTime ≤ ((⌈n.endTime / secondsPerCell bpm 8⌉ : Rat)) * secondsPerCell bpm 8
    calc n.endTime = n.endTime / secondsPerCell bpm 8 * secondsPerCell bpm 8 :=
          (div_mul_cancel₀ _ hspc.ne').symm
      _ ≤ ((⌈n.endTime / secondsPerCell bpm 8⌉ : Rat)) * secondsPerCell bpm 8 :=
          mul_le_mul_of_nonneg_right (Int.le_ceil _) hspc.le
  · show (⌊n.startTime / secondsPerCell bpm 8⌋ : Int) = ⌊n.startTime * bpm * 8 / 60⌋
    congr 1
    unfold secondsPerCell
    field_simp
    ring
  · show (⌈n.endTime / secondsPerCell bpm 8⌉ : Int) = ⌈n.endTime * bpm * 8 / 60⌉
    congr 1
    unfold secondsPerCell
    field_simp
    ring

/-- Witness for C8 (amended): the remapped cell span of a concrete
response note covers its time span. -/
theorem c8_response_remap_witness :
    ((convertResponseNote 120 ⟨60, 1/2, 3/4, 100⟩).startPosition : Rat)
        * secondsPerCell 120 8 ≤ (1/2 : Rat) :=
  (c8_response_remap 120 ⟨60, 1/2, 3/4, 100⟩ (by norm_num)).2.2.2.2.1

/-- The pitch-to-MIDI formula used throughout `part_000`
(e.g. line 284): `Math.round(69 + 12 * Math.log2(freq / 440))`
(no clamping in `handleNoteEnd`). -/
noncomputable def frequencyToMidiNote (f : Real) : Int :=
  round ((69 : Real) + 12 * Real.logb 2 (f / 440))

/-- The clamped variant used by the frame loop (`part_000` line 518) and
`quantizeNote` (line 326): `Math.max(0, Math.min(127, round(...)))`. -/
noncomputable def frequencyToMidiNoteClamped (f : Real) : Int :=
  max 0 (min 127 (frequencyToMidiNote f))

/-- `currentNoteState` of `part_000` (lines 72-78) while a note is
active: the raw detected frequency in Hz plus timing data. -/
structure ActiveNoteState where
  pitch : Real
  startTime : Rat
  startPosition : Int
  lastUpdateTime : Rat

/-- State touched by the silence-offset logic of the frame loop:
the (possibly active) `currentNoteState`, the loop-local
`silenceStartTime` (`null` modelled as `none`; all frame times are
assumed positive so a stored time is always truthy in the JS sense),
the committed `userNotes`, and a ghost counter of how many times an
active note was closed and committed. -/
structure SilenceState where
  currentNoteState : Option ActiveNoteState
  silenceStartTime : Option Rat
  userNotes : List Note
  closes : Nat

/-- The `Note` built by `handleNoteEnd` of `part_000` (lines 283-289):
pitch from the stored frequency, end position from `calculatePosition`. -/
noncomputable def closedNote (bpm : Rat) (bars gd : Int) (a : ActiveNoteState)
    (time : Rat) : Note :=
  { pitch := frequencyToMidiNote a.pitch
    startPosition := a.startPosition
    endPosition := calculatePosition bpm bars gd time
    startTime := a.startTime
    endTime := time
    velocity := none }

/-- `handleNoteEnd` of `part_000` (lines 277-313): when a note is active,
convert it to a `Note`, commit it under the current mode, and clear the
active state; otherwise do nothing. -/
noncomputable def handleNoteEnd (isAddMode : Bool) (bpm : Rat) (bars gd : Int)
    (s : SilenceState) (time : Rat) : SilenceState :=
  match s.currentNoteState with
  | none => s
  | some a =>
      { currentNoteState := none
        silenceStartTime := s.silenceStartTime
        userNotes := commitNote isAddMode s.userNotes (closedNote bpm bars gd a time)
        closes := s.closes + 1 }

/-- One frame of the silence-offset logic of `part_000` when no sound is
detected: first the tracking block (lines 539-547, 100 ms threshold,
closing at the current time), then the fallback block
(lines 559-562 and 564-568, 200 ms `SILENCE_THRESHOLD`, closing at the
recorded silence-start time).  Both blocks run within the same frame. -/
noncomputable def silentFrame (isAddMode : Bool) (bpm : Rat) (bars gd : Int)
    (s : SilenceState) (t : Rat) : SilenceState :=
  let s1 :=
    if s.currentNoteState.isSome then
      match s.silenceStartTime with
      | none => { s with silenceStartTime := some t }
      | some t0 =>
          if t - t0 > 1/10 then
            { handleNoteEnd isAddMode bpm bars gd s t with silenceStartTime := none }
          else s
    else s
  let s2 :=
    if s1.currentNoteState.isSome && s1.silenceStartTime.isNone then
      { s1 with silenceStartTime := some t }
    else s1
  match s2.silenceStartTime with
  | some t0 =>
      if t - t0 > 1/5 then
        { handleNoteEnd isAddMode bpm bars gd s2 t0 with silenceStartTime := none }
      else s2
  | none => s2

/-- The silence-offset logic run over a list of consecutive silent-frame
times. -/
noncomputable def silentRun (isAddMode : Bool) (bpm : Rat) (bars gd : Int)
    (s : SilenceState) : List Rat → SilenceState
  | [] => s
  | t :: ts => silentRun isAddMode bpm bars gd (silentFrame isAddMode bpm bars gd s t) ts

theorem silentFrame_inactive (isAddMode : Bool) (bpm : Rat) (bars gd : Int)
    (s : SilenceState) (t : Rat)
    (h1 : s.currentNoteState = none) (h2 : s.silenceStartTime = none) :
    silentFrame isAddMode bpm bars gd s t = s := by
  obtain ⟨cns, sst, un, c⟩ := s
  simp only at h1 h2
  subst h1; subst h2
  simp [silentFrame]

theorem silentRun_inactive (isAddMode : Bool) (bpm : Rat) (bars gd : Int) :
    ∀ (ts : List Rat) (s : SilenceState),
      s.currentNoteState = none → s.silenceStartTime = none →
      silentRun isAddMode bpm bars gd s ts = s := by
  intro ts
  induction ts with
  | nil => intro s _ _; rfl
  | cons t ts ih =>
      intro s h1 h2
      rw [silentRun, silentFrame_inactive isAddMode bpm bars gd s t h1 h2]
      exact ih s h1 h2

theorem silentFrame_first (isAddMode : Bool) (bpm : Rat) (bars gd : Int)
    (a : ActiveNoteState) (notes : List Note) (c : Nat) (t : Rat) :
    silentFrame isAddMode bpm bars gd ⟨some a, none, notes, c⟩ t
      = ⟨some a, some t, notes, c⟩ := by
  simp [silentFrame]

theorem silentFrame_short (isAddMode : Bool) (bpm : Rat) (bars gd : Int)
    (a : ActiveNoteState) (notes : List Note) (c : Nat) (t1 t : Rat)
    (h : ¬ t - t1 > 1/10) :
    silentFrame isAddMode bpm bars gd ⟨some a, some t1, notes, c⟩ t
      = ⟨some a, some t1, notes, c⟩ := by
  have h5 : ¬ t - t1 > 1/5 := by
    intro hc; exact h (by linarith)
  simp [silentFrame, h, h5, -one_div]

theorem silentFrame_long (isAddMode : Bool) (bpm : Rat) (bars gd : Int)
    (a : ActiveNoteState) (notes : List Note) (c : Nat) (t1 t : Rat)
    (h : t - t1 > 1/10) :
    silentFrame isAddMode bpm bars gd ⟨some a, some t1, notes, c⟩ t
      = ⟨none, none,
          commitNote isAddMode notes (closedNote bpm bars gd a t), c + 1⟩ := by
  simp [silentFrame, handleNoteEnd, h, -one_div]

theorem silentRun_tracking (isAddMode : Bool) (bpm : Rat) (bars gd : Int)
    (a : ActiveNoteState) (t1 : Rat) :
    ∀ (ts : List Rat) (notes : List Note) (c : Nat),
      (silentRun isAddMode bpm bars gd ⟨some a, some t1, notes, c⟩ ts).closes ≤ c + 1 ∧
      ((∃ tk ∈ ts, tk - t1 > 1/10) →
        (silentRun isAddMode bpm bars gd ⟨some a, some t1, notes, c⟩ ts).closes = c + 1) := by
  intro ts
  induction ts with
  | nil =>
      intro notes c
      exact ⟨by simp [silentRun], by intro ⟨tk, h, _⟩; simp at h⟩
  | cons t ts ih =>
      intro notes c
      by_cases h : t - t1 > 1/10
      · rw [silentRun, silentFrame_long isAddMode bpm bars gd a notes c t1 t h,
            silentRun_inactive isAddMode bpm bars gd ts _ rfl rfl]
        exact ⟨le_refl _, fun _ => rfl⟩
      · rw [silentRun, silentFrame_short isAddMode bpm bars gd a notes c t1 t h]
        refine ⟨(ih notes c).1, ?_⟩
        intro ⟨tk, hmem, htk⟩
        rcases List.mem_cons.mp hmem with heq | hmem2
        · exact absurd (heq ▸ htk) h
        · exact (ih notes c).2 ⟨tk, hmem2, htk⟩

/-- C3: starting from any active note and any committed store, a run of
consecutive silent frames closes the active note at most once — even
though both the 100 ms tracking threshold and the 200 ms fallback
threshold are evaluated on every silent frame — and exactly once as soon
as some silent frame falls more than 100 ms after the first one. -/
theorem c3_silence_closes_once (isAddMode : Bool) (bpm : Rat) (bars gd : Int)
    (a : ActiveNoteState) (notes : List Note) (t1 : Rat) (ts : List Rat) :
    (silentRun isAddMode bpm bars gd ⟨some a, none, notes, 0⟩ (t1 :: ts)).closes ≤ 1 ∧
    ((∃ tk ∈ ts, tk - t1 > 1/10) →
      (silentRun isAddMode bpm bars gd ⟨some a, none, notes, 0⟩ (t1 :: ts)).closes = 1) := by
  rw [silentRun, silentFrame_first]
  exact silentRun_tracking isAddMode bpm bars gd a t1 ts notes 0

/-- Witness for C3: a concrete active note at 440 Hz followed by silent
frames at 1 s and 2 s is closed exactly once. -/
theorem c3_silence_closes_once_witness :
    (silentRun true 120 4 8 ⟨some ⟨440, 0, 0, 0⟩, none, [], 0⟩ [1, 2]).closes = 1 :=
  (c3_silence_closes_once true 120 4 8 ⟨440, 0, 0, 0⟩ [] 1 [2]).2
    ⟨2, by simp, by norm_num⟩

/-- One pitch-detection frame as sampled by the analysis loop of
`part_000`: relative time, RMS energy, detected frequency (`none` for the
falsy no-pitch result) and detection clarity. -/
structure Frame where
  t : Rat
  energy : Rat
  freq : Option Real
  clarity : Rat

/-- A frame with the detected frequency already mapped through the
clamped pitch-to-MIDI conversion of `part_000` line 518 (the conversion
is deterministic, so mapping it eagerly over the optional frequency is
equivalent to the in-branch computation). -/
structure FrameC where
  t : Rat
  energy : Rat
  midi : Option Int
  clarity : Rat

/-- An event of the single-threaded loop: an animation frame, or the
settlement (`.then`/`.catch`/`.finally`, `part_000` lines 471-501) of an
outstanding `generateResponse` promise. -/
inductive SysEvC where
  | frame (f : FrameC)
  | resolve

/-- The same events carrying raw frequencies. -/
inductive SysEv where
  | frame (f : Frame)
  | resolve

/-- State of the frame loop of `part_000` relevant to note commitment and
generation dispatch: the committed `userNotes` (live via `userNotesRef`),
`previousNotesRef`, `lastLoopEndPosition`, the `isWaitingForMagenta`
React state (as written by `setIsWaitingForMagenta`), the number of
outstanding generation promises, and the loop-local `silenceStartTime`.
`currentNoteState` is omitted: `handleNoteStart` is never invoked
anywhere in `part_000`, so `currentNoteState.isActive` is `false` on
every frame; consequently the silence blocks at lines 540-547 and 559-562
never set `silenceStartTime` and never call `handleNoteEnd` with an
active note, leaving only line 565's clearing check with effect. -/
structure SysState where
  userNotes : List Note
  previousNotes : List Note
  lastLoopEnd : Int
  waitingState : Bool
  inFlight : Nat
  silenceStart : Option Rat
deriving DecidableEq, Repr

/-- Initial loop state (`part_000`: notes cleared at jam start line 810,
`previousNotesRef` starts `[]` line 50, `lastLoopEndPosition = -1`
line 350, `isWaitingForMagenta` starts `false` line 49,
`silenceStartTime = null` line 347, no promise outstanding). -/
def sysInit : SysState := ⟨[], [], -1, false, 0, none⟩

/-- The loop-boundary block of `part_000` (lines 416-509).  `wClosure` is
the value of `isWaitingForMagenta` captured by the `loop` closure when
`listen()` ran: the `loop` function is created once and re-scheduled via
`requestAnimationFrame`, so line 428 reads this captured value, not the
current React state.  On a firing boundary with a changed buffer and a
false captured flag, `previousNotesRef` is replaced immediately (line 464,
before the promise resolves), the in-flight React state is set (line 465)
and one generation request is issued (line 470). -/
def boundaryBlock (wClosure : Bool) (total np : Int) (s : SysState) : SysState :=
  if boundaryFires total s.lastLoopEnd np then
    if s.userNotes ≠ s.previousNotes ∧ wClosure = false then
      { s with previousNotes := s.userNotes, waitingState := true, inFlight := s.inFlight + 1 }
    else s
  else s

/-- One event of the frame loop of `part_000` (lines 354-577), over
frames with pre-converted MIDI pitches.  A frame runs the boundary block
(lines 416-509), stores the normalized position (line 510), then either
commits a one-cell note on detected sound with a defined pitch and
clarity above 0.7 (lines 513-537) or runs the residual silence check
(line 565; see `SysState` on why the other silence lines have no
effect).  A resolve event clears the in-flight React state
(lines 498-501) and retires one outstanding promise. -/
def sysStep (wClosure isAddMode : Bool) (bpm : Rat) (bars gd : Int)
    (s : SysState) : SysEvC → SysState
  | .resolve =>
      if 0 < s.inFlight then
        { s with inFlight := s.inFlight - 1, waitingState := false }
      else s
  | .frame f =>
      let np := normalizedPosition bpm bars gd f.t
      let s2 := { boundaryBlock wClosure (totalCells bars gd) np s with lastLoopEnd := np }
      if 1/10 < f.energy then
        match f.midi with
        | some m =>
            if 7/10 < f.clarity then
              let note : Note := ⟨m, np, np + 1, f.t, f.t + secondsPerCell bpm (gd : Rat), none⟩
              { s2 with userNotes := commitNote isAddMode s2.userNotes note }
            else s2
        | none => s2
      else
        match s2.silenceStart with
        | some t0 => if 1/5 < f.t - t0 then { s2 with silenceStart := none } else s2
        | none => s2

/-- The loop run over a list of events. -/
def sysRun (wClosure isAddMode : Bool) (bpm : Rat) (bars gd : Int)
    (s : SysState) : List SysEvC → SysState
  | [] => s
  | e :: es => sysRun wClosure isAddMode bpm bars gd
      (sysStep wClosure isAddMode bpm bars gd s e) es

/-- Pitch conversion of an event (`part_000` line 518 applied to the raw
frame). -/
noncomputable def SysEv.toCore : SysEv → SysEvC
  | .frame f => .frame ⟨f.t, f.energy, f.freq.map frequencyToMidiNoteClamped, f.clarity⟩
  | .resolve => .resolve

/-- The frame loop over raw-frequency events. -/
noncomputable def sysRunR (wClosure isAddMode : Bool) (bpm : Rat) (bars gd : Int)
    (s : SysState) (evs : List SysEv) : SysState :=
  sysRun wClosure isAddMode bpm bars gd s (evs.map SysEv.toCore)

theorem boundaryBlock_userNotes (wClosure : Bool) (total np : Int) (s : SysState) :
    (boundaryBlock wClosure total np s).userNotes = s.userNotes := by
  unfold boundaryBlock; split_ifs <;> rfl

theorem boundaryBlock_silenceStart (wClosure : Bool) (total np : Int) (s : SysState) :
    (boundaryBlock wClosure total np s).silenceStart = s.silenceStart := by
  unfold boundaryBlock; split_ifs <;> rfl

theorem boundaryBlock_nofire (wClosure : Bool) (total np : Int) (s : SysState)
    (h : boundaryFires total s.lastLoopEnd np = false) :
    boundaryBlock wClosure total np s = s := by
  simp [boundaryBlock, h]

theorem boundaryBlock_fire_nochange (wClosure : Bool) (total np : Int) (s : SysState)
    (h : boundaryFires total s.lastLoopEnd np = true)
    (heq : s.userNotes = s.previousNotes) :
    boundaryBlock wClosure total np s = s := by
  simp [boundaryBlock, h, heq]

theorem boundaryBlock_fire_dispatch (wClosure : Bool) (total np : Int) (s : SysState)
    (h : boundaryFires total s.lastLoopEnd np = true)
    (hne : s.userNotes ≠ s.previousNotes) (hwc : wClosure = false) :
    boundaryBlock wClosure total np s
      = { s with previousNotes := s.userNotes, waitingState := true,
                 inFlight := s.inFlight + 1 } := by
  simp [boundaryBlock, h, hne, hwc]

theorem sysStep_frame_sound (wClosure isAddMode : Bool) (bpm : Rat) (bars gd : Int)
    (s : SysState) (f : FrameC) (np m : Int)
    (hnp : normalizedPosition bpm bars gd f.t = np)
    (he : 1/10 < f.energy) (hm : f.midi = some m) (hc : 7/10 < f.clarity) :
    sysStep wClosure isAddMode bpm bars gd s (.frame f) =
      (let s2 := { boundaryBlock wClosure (totalCells bars gd) np s with lastLoopEnd := np }
       { s2 with userNotes := commitNote isAddMode s2.userNotes ⟨m, np, np + 1, f.t, f.t + secondsPerCell bpm (gd : Rat), none⟩ }) := by
  simp only [sysStep, hnp, hm]
  rw [if_pos he, if_pos hc]

theorem sysStep_frame_silent (wClosure isAddMode : Bool) (bpm : Rat) (bars gd : Int)
    (s : SysState) (f : FrameC) (np : Int)
    (hnp : normalizedPosition bpm bars gd f.t = np)
    (he : ¬ 1/10 < f.energy) (hss : s.silenceStart = none) :
    sysStep wClosure isAddMode bpm bars gd s (.frame f) =
      { boundaryBlock wClosure (totalCells bars gd) np s with lastLoopEnd := np } := by
  simp only [sysStep, hnp]
  rw [if_neg he]
  simp [boundaryBlock_silenceStart, hss]

theorem frequencyToMidiNoteClamped_440 : frequencyToMidiNoteClamped 440 = 69 := by
  unfold frequencyToMidiNoteClamped frequencyToMidiNote
  have h : Real.logb 2 ((440 : Real) / 440) = 0 := by
    norm_num [Real.logb_one]
  rw [h]
  norm_num

theorem frequencyToMidiNoteClamped_880 : frequencyToMidiNoteClamped 880 = 81 := by
  unfold frequencyToMidiNoteClamped frequencyToMidiNote
  have h : Real.logb 2 ((880 : Real) / 440) = 1 := by
    rw [show (880 : Real) / 440 = 2 by norm_num]
    exact Real.logb_self_eq_one (by norm_num)
  rw [h]
  norm_num

set_option linter.unreachableTactic false
set_option linter.unusedTactic false
set_option linter.unnecessarySeqFocus false

theorem npv_0 : normalizedPosition 120 4 8 0 = 0 := by
  norm_num [normalizedPosition, loopPositionOf, jsMod, totalCells] <;> decide

theorem npv_1_100 : normalizedPosition 120 4 8 (1/100) = 0 := by
  norm_num [normalizedPosition, loopPositionOf, jsMod, totalCells] <;> decide

theorem npv_2_100 : normalizedPosition 120 4 8 (2/100) = 0 := by
  norm_num [normalizedPosition, loopPositionOf, jsMod, totalCells] <;> decide

theorem npv_1_10 : normalizedPosition 120 4 8 (1/10) = 1 := by
  norm_num [normalizedPosition, loopPositionOf, jsMod, totalCells] <;> decide

theorem npv_35_100 : normalizedPosition 120 4 8 (35/100) = 5 := by
  norm_num [normalizedPosition, loopPositionOf, jsMod, totalCells] <;> decide

theorem npv_1_16 : normalizedPosition 120 4 8 (1/16) = 1 := by
  norm_num [normalizedPosition, loopPositionOf, jsMod, totalCells] <;> decide

theorem npv_1_8 : normalizedPosition 120 4 8 (1/8) = 2 := by
  norm_num [normalizedPosition, loopPositionOf, jsMod, totalCells] <;> decide

theorem npv_3_16 : normalizedPosition 120 4 8 (3/16) = 3 := by
  norm_num [normalizedPosition, loopPositionOf, jsMod, totalCells] <;> decide

theorem npv_1_4 : normalizedPosition 120 4 8 (1/4) = 4 := by
  norm_num [normalizedPosition, loopPositionOf, jsMod, totalCells] <;> decide

theorem npv_5_16 : normalizedPosition 120 4 8 (5/16) = 5 := by
  norm_num [normalizedPosition, loopPositionOf, jsMod, totalCells] <;> decide

theorem npv_9_16 : normalizedPosition 120 4 8 (9/16) = 9 := by
  norm_num [normalizedPosition, loopPositionOf, jsMod, totalCells] <;> decide

theorem npv_127_16 : normalizedPosition 120 4 8 (127/16) = 127 := by
  norm_num [normalizedPosition, loopPositionOf, jsMod, totalCells] <;> decide

theorem npv_8 : normalizedPosition 120 4 8 8 = 0 := by
  norm_num [normalizedPosition, loopPositionOf, jsMod, totalCells] <;> decide

theorem npv_129_16 : normalizedPosition 120 4 8 (129/16) = 1 := by
  norm_num [normalizedPosition, loopPositionOf, jsMod, totalCells] <;> decide

theorem npv_255_16 : normalizedPosition 120 4 8 (255/16) = 127 := by
  norm_num [normalizedPosition, loopPositionOf, jsMod, totalCells] <;> decide

theorem npv_16 : normalizedPosition 120 4 8 16 = 0 := by
  norm_num [normalizedPosition, loopPositionOf, jsMod, totalCells] <;> decide

/-- C4's scenario (single-cell variant): onset at 440 Hz, confidence 0.9,
energy above threshold, sustained for 3 frames all falling in grid
cell 0, followed by silent frames spanning more than 200 ms. -/
noncomputable def c4TraceOneCell : List SysEv :=
  [.frame ⟨0, 1/5, some 440, 9/10⟩,
   .frame ⟨1/100, 1/5, some 440, 9/10⟩,
   .frame ⟨2/100, 1/5, some 440, 9/10⟩,
   .frame ⟨1/10, 0, none, 0⟩,
   .frame ⟨35/100, 0, none, 0⟩]

/-- C4's scenario (cell-straddling variant): the same onset sustained for
3 frames, but the frames sample three different grid cells (times 0,
1/16 s, 1/8 s at 120 BPM with 32nd-note cells), followed by the same
silence. -/
noncomputable def c4TraceThreeCells : List SysEv :=
  [.frame ⟨0, 1/5, some 440, 9/10⟩,
   .frame ⟨1/16, 1/5, some 440, 9/10⟩,
   .frame ⟨1/8, 1/5, some 440, 9/10⟩,
   .frame ⟨5/16, 0, none, 0⟩,
   .frame ⟨9/16, 0, none, 0⟩]

/-- C4 (amended): on the default configuration (Add mode, 120 BPM, 4 bars,
32nd-note grid), when the three sustained frames fall within a single grid
cell the pipeline commits exactly one Note with pitch 69, and the trailing
silence commits nothing. -/
theorem c4_single_cell_one_note :
    (sysRunR false true 120 4 8 sysInit c4TraceOneCell).userNotes
      = [⟨69, 0, 1, 0, 1/16, none⟩] := by
  have hmap : c4TraceOneCell.map SysEv.toCore =
      [.frame ⟨0, 1/5, some 69, 9/10⟩,
       .frame ⟨1/100, 1/5, some 69, 9/10⟩,
       .frame ⟨2/100, 1/5, some 69, 9/10⟩,
       .frame ⟨1/10, 0, none, 0⟩,
       .frame ⟨35/100, 0, none, 0⟩] := by
    simp [c4TraceOneCell, SysEv.toCore, frequencyToMidiNoteClamped_440]
  have h1 : sysStep false true 120 4 8 sysInit (SysEvC.frame ⟨0, 1/5, some 69, 9/10⟩)
      = ⟨[⟨69, 0, 1, 0, 1/16, none⟩], [], 0, false, 0, none⟩ := by
    rw [sysStep_frame_sound false true 120 4 8 sysInit ⟨0, 1/5, some 69, 9/10⟩ 0 69 npv_0
      (by norm_num) rfl (by norm_num)]
    rw [boundaryBlock_fire_nochange false (totalCells 4 8) 0 sysInit (by decide) rfl]
    simp [commitNote, secondsPerCell, sysInit]
    norm_num
  have h2 : sysStep false true 120 4 8 ⟨[⟨69, 0, 1, 0, 1/16, none⟩], [], 0, false, 0, none⟩
      (SysEvC.frame ⟨1/100, 1/5, some 69, 9/10⟩)
      = ⟨[⟨69, 0, 1, 0, 1/16, none⟩], [], 0, false, 0, none⟩ := by
    rw [sysStep_frame_sound false true 120 4 8 _ ⟨1/100, 1/5, some 69, 9/10⟩ 0 69 npv_1_100
      (by norm_num) rfl (by norm_num)]
    rw [boundaryBlock_nofire false (totalCells 4 8) 0 _ (by decide)]
    simp [commitNote]
  have h3 : sysStep false true 120 4 8 ⟨[⟨69, 0, 1, 0, 1/16, none⟩], [], 0, false, 0, none⟩
      (SysEvC.frame ⟨2/100, 1/5, some 69, 9/10⟩)
      = ⟨[⟨69, 0, 1, 0, 1/16, none⟩], [], 0, false, 0, none⟩ := by
    rw [sysStep_frame_sound false true 120 4 8 _ ⟨2/100, 1/5, some 69, 9/10⟩ 0 69 npv_2_100
      (by norm_num) rfl (by norm_num)]
    rw [boundaryBlock_nofire false (totalCells 4 8) 0 _ (by decide)]
    simp [commitNote]
  have h4 : sysStep false true 120 4 8 ⟨[⟨69, 0, 1, 0, 1/16, none⟩], [], 0, false, 0, none⟩
      (SysEvC.frame ⟨1/10, 0, none, 0⟩)
      = ⟨[⟨69, 0, 1, 0, 1/16, none⟩], [], 1, false, 0, none⟩ := by
    rw [sysStep_frame_silent false true 120 4 8 _ ⟨1/10, 0, none, 0⟩ 1 npv_1_10
      (by norm_num) rfl]
    rw [boundaryBlock_nofire false (totalCells 4 8) 1 _ (by decide)]
  have h5 : sysStep false true 120 4 8 ⟨[⟨69, 0, 1, 0, 1/16, none⟩], [], 1, false, 0, none⟩
      (SysEvC.frame ⟨35/100, 0, none, 0⟩)
      = ⟨[⟨69, 0, 1, 0, 1/16, none⟩], [], 5, false, 0, none⟩ := by
    rw [sysStep_frame_silent false true 120 4 8 _ ⟨35/100, 0, none, 0⟩ 5 npv_35_100
      (by norm_num) rfl]
    rw [boundaryBlock_nofire false (totalCells 4 8) 5 _ (by decide)]
  show (sysRunR false true 120 4 8 sysInit c4TraceOneCell).userNotes = _
  rw [sysRunR, hmap]
  simp only [sysRun]
  rw [h1, h2, h3, h4, h5]

/-- Counterexample to C4: for the cell-straddling trace — an equally valid
instance of "onset at 440 Hz, confidence 0.9, above-threshold energy
sustained for 3 frames, then silence > 200 ms" — the pipeline commits
three Notes, not exactly one: the loop commits one single-cell note per
grid cell sampled while sound is detected. -/
theorem c4_counterexample :
    (sysRunR false true 120 4 8 sysInit c4TraceThreeCells).userNotes
      = [⟨69, 0, 1, 0, 1/16, none⟩, ⟨69, 1, 2, 1/16, 1/8, none⟩,
         ⟨69, 2, 3, 1/8, 3/16, none⟩] ∧
    (sysRunR false true 120 4 8 sysInit c4TraceThreeCells).userNotes.length ≠ 1 := by
  have hmap : c4TraceThreeCells.map SysEv.toCore =
      [.frame ⟨0, 1/5, some 69, 9/10⟩,
       .frame ⟨1/16, 1/5, some 69, 9/10⟩,
       .frame ⟨1/8, 1/5, some 69, 9/10⟩,
       .frame ⟨5/16, 0, none, 0⟩,
       .frame ⟨9/16, 0, none, 0⟩] := by
    simp [c4TraceThreeCells, SysEv.toCore, frequencyToMidiNoteClamped_440]
  have h1 : sysStep false true 120 4 8 sysInit (SysEvC.frame ⟨0, 1/5, some 69, 9/10⟩)
      = ⟨[⟨69, 0, 1, 0, 1/16, none⟩], [], 0, false, 0, none⟩ := by
    rw [sysStep_frame_sound false true 120 4 8 sysInit ⟨0, 1/5, some 69, 9/10⟩ 0 69 npv_0
      (by norm_num) rfl (by norm_num)]
    rw [boundaryBlock_fire_nochange false (totalCells 4 8) 0 sysInit (by decide) rfl]
    simp [commitNote, secondsPerCell, sysInit]
    norm_num
  have h2 : sysStep false true 120 4 8 ⟨[⟨69, 0, 1, 0, 1/16, none⟩], [], 0, false, 0, none⟩
      (SysEvC.frame ⟨1/16, 1/5, some 69, 9/10⟩)
      = ⟨[⟨69, 0, 1, 0, 1/16, none⟩, ⟨69, 1, 2, 1/16, 1/8, none⟩], [], 1, false, 0, none⟩ := by
    rw [sysStep_frame_sound false true 120 4 8 _ ⟨1/16, 1/5, some 69, 9/10⟩ 1 69 npv_1_16
      (by norm_num) rfl (by norm_num)]
    rw [boundaryBlock_nofire false (totalCells 4 8) 1 _ (by decide)]
    simp [commitNote, secondsPerCell]
    norm_num
  have h3 : sysStep false true 120 4 8
      ⟨[⟨69, 0, 1, 0, 1/16, none⟩, ⟨69, 1, 2, 1/16, 1/8, none⟩], [], 1, false, 0, none⟩
      (SysEvC.frame ⟨1/8, 1/5, some 69, 9/10⟩)
      = ⟨[⟨69, 0, 1, 0, 1/16, none⟩, ⟨69, 1, 2, 1/16, 1/8, none⟩,
          ⟨69, 2, 3, 1/8, 3/16, none⟩], [], 2, false, 0, none⟩ := by
    rw [sysStep_frame_sound false true 120 4 8 _ ⟨1/8, 1/5, some 69, 9/10⟩ 2 69 npv_1_8
      (by norm_num) rfl (by norm_num)]
    rw [boundaryBlock_nofire false (totalCells 4 8) 2 _ (by decide)]
    simp [commitNote, secondsPerCell]
    norm_num
  have h4 : sysStep false true 120 4 8
      ⟨[⟨69, 0, 1, 0, 1/16, none⟩, ⟨69, 1, 2, 1/16, 1/8, none⟩,
        ⟨69, 2, 3, 1/8, 3/16, none⟩], [], 2, false, 0, none⟩
      (SysEvC.frame ⟨5/16, 0, none, 0⟩)
      = ⟨[⟨69, 0, 1, 0, 1/16, none⟩, ⟨69, 1, 2, 1/16, 1/8, none⟩,
          ⟨69, 2, 3, 1/8, 3/16, none⟩], [], 5, false, 0, none⟩ := by
    rw [sysStep_frame_silent false true 120 4 8 _ ⟨5/16, 0, none, 0⟩ 5 npv_5_16
      (by norm_num) rfl]
    rw [boundaryBlock_nofire false (totalCells 4 8) 5 _ (by decide)]
  have h5 : sysStep false true 120 4 8
      ⟨[⟨69, 0, 1, 0, 1/16, none⟩, ⟨69, 1, 2, 1/16, 1/8, none⟩,
        ⟨69, 2, 3, 1/8, 3/16, none⟩], [], 5, false, 0, none⟩
      (SysEvC.frame ⟨9/16, 0, none, 0⟩)
      = ⟨[⟨69, 0, 1, 0, 1/16, none⟩, ⟨69, 1, 2, 1/16, 1/8, none⟩,
          ⟨69, 2, 3, 1/8, 3/16, none⟩], [], 9, false, 0, none⟩ := by
    rw [sysStep_frame_silent false true 120 4 8 _ ⟨9/16, 0, none, 0⟩ 9 npv_9_16
      (by norm_num) rfl]
    rw [boundaryBlock_nofire false (totalCells 4 8) 9 _ (by decide)]
  have hrun : (sysRunR false true 120 4 8 sysInit c4TraceThreeCells).userNotes
      = [⟨69, 0, 1, 0, 1/16, none⟩, ⟨69, 1, 2, 1/16, 1/8, none⟩,
         ⟨69, 2, 3, 1/8, 3/16, none⟩] := by
    rw [sysRunR, hmap]
    simp only [sysRun]
    rw [h1, h2, h3, h4, h5]
  exact ⟨hrun, by rw [hrun]; simp⟩

/-- `maxDurationInSeconds` of `part_000` (lines 257-258):
`(maxNoteDuration / gridDivision) * secondsPerBeat`. -/
def maxDurationInSeconds (bpm maxNoteDuration gridDivision : Rat) : Rat :=
  maxNoteDuration / gridDivision * (60 / bpm)

/-- C5's scenario: a single sustained pitch (440 Hz, above both
thresholds) sampled once per grid cell for 5 consecutive cells — longer
than the shortest configurable maximum note duration
(`maxNoteDuration = 2` grid cells = 1/8 s here). -/
noncomputable def c5Trace : List SysEv :=
  [.frame ⟨0, 1/5, some 440, 9/10⟩,
   .frame ⟨1/16, 1/5, some 440, 9/10⟩,
   .frame ⟨1/8, 1/5, some 440, 9/10⟩,
   .frame ⟨3/16, 1/5, some 440, 9/10⟩,
   .frame ⟨1/4, 1/5, some 440, 9/10⟩]

/-- C5 (amended): a pitch sustained for longer than the maximum note
duration yields at least 2 committed Notes with contiguous grid positions
(no gap) and each note within the maximum duration — because the loop
commits one complete single-cell note per sampled grid cell (the
duration-split logic of `handleNoteStart` is unreachable); each note is
born already closed within a single frame, rather than being closed and
reopened. -/
theorem c5_sustained_pitch_splits :
    (sysRunR false true 120 4 8 sysInit c5Trace).userNotes
      = [⟨69, 0, 1, 0, 1/16, none⟩, ⟨69, 1, 2, 1/16, 1/8, none⟩,
         ⟨69, 2, 3, 1/8, 3/16, none⟩, ⟨69, 3, 4, 3/16, 1/4, none⟩,
         ⟨69, 4, 5, 1/4, 5/16, none⟩] ∧
    2 ≤ (sysRunR false true 120 4 8 sysInit c5Trace).userNotes.length ∧
    List.Chain' (fun a b => a.endPosition = b.startPosition)
      (sysRunR false true 120 4 8 sysInit c5Trace).userNotes ∧
    (∀ n ∈ (sysRunR false true 120 4 8 sysInit c5Trace).userNotes,
      n.endPosition - n.startPosition = 1 ∧
      n.endTime - n.startTime ≤ maxDurationInSeconds 120 2 8) := by
  have hmap : c5Trace.map SysEv.toCore =
      [.frame ⟨0, 1/5, some 69, 9/10⟩,
       .frame ⟨1/16, 1/5, some 69, 9/10⟩,
       .frame ⟨1/8, 1/5, some 69, 9/10⟩,
       .frame ⟨3/16, 1/5, some 69, 9/10⟩,
       .frame ⟨1/4, 1/5, some 69, 9/10⟩] := by
    simp [c5Trace, SysEv.toCore, frequencyToMidiNoteClamped_440]
  have h1 : sysStep false true 120 4 8 sysInit (SysEvC.frame ⟨0, 1/5, some 69, 9/10⟩)
      = ⟨[⟨69, 0, 1, 0, 1/16, none⟩], [], 0, false, 0, none⟩ := by
    rw [sysStep_frame_sound false true 120 4 8 sysInit ⟨0, 1/5, some 69, 9/10⟩ 0 69 npv_0
      (by norm_num) rfl (by norm_num)]
    rw [boundaryBlock_fire_nochange false (totalCells 4 8) 0 sysInit (by decide) rfl]
    simp [commitNote, secondsPerCell, sysInit]
    norm_num
  have h2 : sysStep false true 120 4 8 ⟨[⟨69, 0, 1, 0, 1/16, none⟩], [], 0, false, 0, none⟩
      (SysEvC.frame ⟨1/16, 1/5, some 69, 9/10⟩)
      = ⟨[⟨69, 0, 1, 0, 1/16, none⟩, ⟨69, 1, 2, 1/16, 1/8, none⟩], [], 1, false, 0, none⟩ := by
    rw [sysStep_frame_sound false true 120 4 8 _ ⟨1/16, 1/5, some 69, 9/10⟩ 1 69 npv_1_16
      (by norm_num) rfl (by norm_num)]
    rw [boundaryBlock_nofire false (totalCells 4 8) 1 _ (by decide)]
    simp [commitNote, secondsPerCell]
    norm_num
  have h3 : sysStep false true 120 4 8
      ⟨[⟨69, 0, 1, 0, 1/16, none⟩, ⟨69, 1, 2, 1/16, 1/8, none⟩], [], 1, false, 0, none⟩
      (SysEvC.frame ⟨1/8, 1/5, some 69, 9/10⟩)
      = ⟨[⟨69, 0, 1, 0, 1/16, none⟩, ⟨69, 1, 2, 1/16, 1/8, none⟩,
          ⟨69, 2, 3, 1/8, 3/16, none⟩], [], 2, false, 0, none⟩ := by
    rw [sysStep_frame_sound false true 120 4 8 _ ⟨1/8, 1/5, some 69, 9/10⟩ 2 69 npv_1_8
      (by norm_num) rfl (by norm_num)]
    rw [boundaryBlock_nofire false (totalCells 4 8) 2 _ (by decide)]
    simp [commitNote, secondsPerCell]
    norm_num
  have h4 : sysStep false true 120 4 8
      ⟨[⟨69, 0, 1, 0, 1/16, none⟩, ⟨69, 1, 2, 1/16, 1/8, none⟩,
        ⟨69, 2, 3, 1/8, 3/16, none⟩], [], 2, false, 0, none⟩
      (SysEvC.frame ⟨3/16, 1/5, some 69, 9/10⟩)
      = ⟨[⟨69, 0, 1, 0, 1/16, none⟩, ⟨69, 1, 2, 1/16, 1/8, none⟩,
          ⟨69, 2, 3, 1/8, 3/16, none⟩, ⟨69, 3, 4, 3/16, 1/4, none⟩], [], 3, false, 0, none⟩ := by
    rw [sysStep_frame_sound false true 120 4 8 _ ⟨3/16, 1/5, some 69, 9/10⟩ 3 69 npv_3_16
      (by norm_num) rfl (by norm_num)]
    rw [boundaryBlock_nofire false (totalCells 4 8) 3 _ (by decide)]
    simp [commitNote, secondsPerCell]
    norm_num
  have h5 : sysStep false true 120 4 8
      ⟨[⟨69, 0, 1, 0, 1/16, none⟩, ⟨69, 1, 2, 1/16, 1/8, none⟩,
        ⟨69, 2, 3, 1/8, 3/16, none⟩, ⟨69, 3, 4, 3/16, 1/4, none⟩], [], 3, false, 0, none⟩
      (SysEvC.frame ⟨1/4, 1/5, some 69, 9/10⟩)
      = ⟨[⟨69, 0, 1, 0, 1/16, none⟩, ⟨69, 1, 2, 1/16, 1/8, none⟩,
          ⟨69, 2, 3, 1/8, 3/16, none⟩, ⟨69, 3, 4, 3/16, 1/4, none⟩,
          ⟨69, 4, 5, 1/4, 5/16, none⟩], [], 4, false, 0, none⟩ := by
    rw [sysStep_frame_sound false true 120 4 8 _ ⟨1/4, 1/5, some 69, 9/10⟩ 4 69 npv_1_4
      (by norm_num) rfl (by norm_num)]
    rw [boundaryBlock_nofire false (totalCells 4 8) 4 _ (by decide)]
    simp [commitNote, secondsPerCell]
    norm_num
  have hrun : (sysRunR false true 120 4 8 sysInit c5Trace).userNotes
      = [⟨69, 0, 1, 0, 1/16, none⟩, ⟨69, 1, 2, 1/16, 1/8, none⟩,
         ⟨69, 2, 3, 1/8, 3/16, none⟩, ⟨69, 3, 4, 3/16, 1/4, none⟩,
         ⟨69, 4, 5, 1/4, 5/16, none⟩] := by
    rw [sysRunR, hmap]
    simp only [sysRun]
    rw [h1, h2, h3, h4, h5]
  refine ⟨hrun, ?_, ?_, ?_⟩
  · rw [hrun]; simp
  · rw [hrun]; simp [List.chain'_cons]
  · rw [hrun]
    intro n hn
    simp only [List.mem_cons, List.not_mem_nil, or_false] at hn
    rcases hn with rfl | rfl | rfl | rfl | rfl <;>
      exact ⟨by decide, by norm_num [maxDurationInSeconds]⟩

/-- Counterexample to C5's same-frame close-and-reopen requirement: after
the first frame of the sustained trace the first note is already complete
in the store; its successor appears only after the second frame.  The
close of a note and the open of its successor therefore happen in
different frames (each note is created already closed; no split-and-
restart occurs within one frame). -/
theorem c5_counterexample :
    (sysRunR false true 120 4 8 sysInit (c5Trace.take 1)).userNotes
      = [⟨69, 0, 1, 0, 1/16, none⟩] ∧
    (sysRunR false true 120 4 8 sysInit (c5Trace.take 2)).userNotes
      = [⟨69, 0, 1, 0, 1/16, none⟩, ⟨69, 1, 2, 1/16, 1/8, none⟩] ∧
    (⟨69, 0, 1, 0, 1/16, none⟩ : Note) ≠ ⟨69, 1, 2, 1/16, 1/8, none⟩ := by
  have hmap1 : (c5Trace.take 1).map SysEv.toCore
      = [.frame ⟨0, 1/5, some 69, 9/10⟩] := by
    simp [c5Trace, SysEv.toCore, frequencyToMidiNoteClamped_440]
  have hmap2 : (c5Trace.take 2).map SysEv.toCore
      = [.frame ⟨0, 1/5, some 69, 9/10⟩, .frame ⟨1/16, 1/5, some 69, 9/10⟩] := by
    simp [c5Trace, SysEv.toCore, frequencyToMidiNoteClamped_440]
  have h1 : sysStep false true 120 4 8 sysInit (SysEvC.frame ⟨0, 1/5, some 69, 9/10⟩)
      = ⟨[⟨69, 0, 1, 0, 1/16, none⟩], [], 0, false, 0, none⟩ := by
    rw [sysStep_frame_sound false true 120 4 8 sysInit ⟨0, 1/5, some 69, 9/10⟩ 0 69 npv_0
      (by norm_num) rfl (by norm_num)]
    rw [boundaryBlock_fire_nochange false (totalCells 4 8) 0 sysInit (by decide) rfl]
    simp [commitNote, secondsPerCell, sysInit]
    norm_num
  have h2 : sysStep false true 120 4 8 ⟨[⟨69, 0, 1, 0, 1/16, none⟩], [], 0, false, 0, none⟩
      (SysEvC.frame ⟨1/16, 1/5, some 69, 9/10⟩)
      = ⟨[⟨69, 0, 1, 0, 1/16, none⟩, ⟨69, 1, 2, 1/16, 1/8, none⟩], [], 1, false, 0, none⟩ := by
    rw [sysStep_frame_sound false true 120 4 8 _ ⟨1/16, 1/5, some 69, 9/10⟩ 1 69 npv_1_16
      (by norm_num) rfl (by norm_num)]
    rw [boundaryBlock_nofire false (totalCells 4 8) 1 _ (by decide)]
    simp [commitNote, secondsPerCell]
    norm_num
  refine ⟨?_, ?_, ?_⟩
  · rw [sysRunR, hmap1]
    simp only [sysRun]
    rw [h1]
  · rw [sysRunR, hmap2]
    simp only [sysRun]
    rw [h1, h2]
  · intro hcontra
    have := congrArg Note.startPosition hcontra
    simp at this

/-- C1's failing scenario: a note is committed in the first cycle, the
first loop boundary (t = 8 s on the default 128-cell grid) dispatches a
generation request, a further note is committed during the second cycle
while that request is still outstanding, and the second loop boundary
(t = 16 s) arrives before the request resolves. -/
noncomputable def c1Trace : List SysEv :=
  [.frame ⟨0, 1/5, some 440, 9/10⟩,
   .frame ⟨127/16, 0, none, 0⟩,
   .frame ⟨8, 0, none, 0⟩,
   .frame ⟨129/16, 1/5, some 880, 9/10⟩,
   .frame ⟨255/16, 0, none, 0⟩,
   .frame ⟨16, 0, none, 0⟩]

/-- C1 (code bug): because the `loop` closure of `part_000` captures
`isWaitingForMagenta` once (value `false`) and `requestAnimationFrame`
re-invokes that same closure, the guard `!isWaitingForMagenta` at
line 428 always passes; with the buffer changed again during the second
cycle, the second boundary dispatches a new generation request while the
first is still in flight — after 4 events one request is outstanding
(with the in-flight React state set), and after the final boundary two
are outstanding concurrently, contradicting the claimed single-flight
gating. -/
theorem c1_stale_flag_double_dispatch :
    (sysRunR false true 120 4 8 sysInit (c1Trace.take 4)).inFlight = 1 ∧
    (sysRunR false true 120 4 8 sysInit (c1Trace.take 4)).waitingState = true ∧
    (sysRunR false true 120 4 8 sysInit c1Trace).inFlight = 2 := by
  have hmap4 : (c1Trace.take 4).map SysEv.toCore =
      [.frame ⟨0, 1/5, some 69, 9/10⟩,
       .frame ⟨127/16, 0, none, 0⟩,
       .frame ⟨8, 0, none, 0⟩,
       .frame ⟨129/16, 1/5, some 81, 9/10⟩] := by
    simp [c1Trace, SysEv.toCore, frequencyToMidiNoteClamped_440, frequencyToMidiNoteClamped_880]
  have hmap : c1Trace.map SysEv.toCore =
      [.frame ⟨0, 1/5, some 69, 9/10⟩,
       .frame ⟨127/16, 0, none, 0⟩,
       .frame ⟨8, 0, none, 0⟩,
       .frame ⟨129/16, 1/5, some 81, 9/10⟩,
       .frame ⟨255/16, 0, none, 0⟩,
       .frame ⟨16, 0, none, 0⟩] := by
    simp [c1Trace, SysEv.toCore, frequencyToMidiNoteClamped_440, frequencyToMidiNoteClamped_880]
  have h1 : sysStep false true 120 4 8 sysInit (SysEvC.frame ⟨0, 1/5, some 69, 9/10⟩)
      = ⟨[⟨69, 0, 1, 0, 1/16, none⟩], [], 0, false, 0, none⟩ := by
    rw [sysStep_frame_sound false true 120 4 8 sysInit ⟨0, 1/5, some 69, 9/10⟩ 0 69 npv_0
      (by norm_num) rfl (by norm_num)]
    rw [boundaryBlock_fire_nochange false (totalCells 4 8) 0 sysInit (by decide) rfl]
    simp [commitNote, secondsPerCell, sysInit]
    norm_num
  have h2 : sysStep false true 120 4 8 ⟨[⟨69, 0, 1, 0, 1/16, none⟩], [], 0, false, 0, none⟩
      (SysEvC.frame ⟨127/16, 0, none, 0⟩)
      = ⟨[⟨69, 0, 1, 0, 1/16, none⟩], [], 127, false, 0, none⟩ := by
    rw [sysStep_frame_silent false true 120 4 8 _ ⟨127/16, 0, none, 0⟩ 127 npv_127_16
      (by norm_num) rfl]
    rw [boundaryBlock_nofire false (totalCells 4 8) 127 _ (by decide)]
  have h3 : sysStep false true 120 4 8 ⟨[⟨69, 0, 1, 0, 1/16, none⟩], [], 127, false, 0, none⟩
      (SysEvC.frame ⟨8, 0, none, 0⟩)
      = ⟨[⟨69, 0, 1, 0, 1/16, none⟩], [⟨69, 0, 1, 0, 1/16, none⟩], 0, true, 1, none⟩ := by
    rw [sysStep_frame_silent false true 120 4 8 _ ⟨8, 0, none, 0⟩ 0 npv_8
      (by norm_num) rfl]
    rw [boundaryBlock_fire_dispatch false (totalCells 4 8) 0 _ (by decide) (by simp) rfl]
  have h4 : sysStep false true 120 4 8
      ⟨[⟨69, 0, 1, 0, 1/16, none⟩], [⟨69, 0, 1, 0, 1/16, none⟩], 0, true, 1, none⟩
      (SysEvC.frame ⟨129/16, 1/5, some 81, 9/10⟩)
      = ⟨[⟨69, 0, 1, 0, 1/16, none⟩, ⟨81, 1, 2, 129/16, 65/8, none⟩],
         [⟨69, 0, 1, 0, 1/16, none⟩], 1, true, 1, none⟩ := by
    rw [sysStep_frame_sound false true 120 4 8 _ ⟨129/16, 1/5, some 81, 9/10⟩ 1 81 npv_129_16
      (by norm_num) rfl (by norm_num)]
    rw [boundaryBlock_nofire false (totalCells 4 8) 1 _ (by decide)]
    simp [commitNote, secondsPerCell]
    norm_num
  have h5 : sysStep false true 120 4 8
      ⟨[⟨69, 0, 1, 0, 1/16, none⟩, ⟨81, 1, 2, 129/16, 65/8, none⟩],
       [⟨69, 0, 1, 0, 1/16, none⟩], 1, true, 1, none⟩
      (SysEvC.frame ⟨255/16, 0, none, 0⟩)
      = ⟨[⟨69, 0, 1, 0, 1/16, none⟩, ⟨81, 1, 2, 129/16, 65/8, none⟩],
         [⟨69, 0, 1, 0, 1/16, none⟩], 127, true, 1, none⟩ := by
    rw [sysStep_frame_silent false true 120 4 8 _ ⟨255/16, 0, none, 0⟩ 127 npv_255_16
      (by norm_num) rfl]
    rw [boundaryBlock_nofire false (totalCells 4 8) 127 _ (by decide)]
  have h6 : sysStep false true 120 4 8
      ⟨[⟨69, 0, 1, 0, 1/16, none⟩, ⟨81, 1, 2, 129/16, 65/8, none⟩],
       [⟨69, 0, 1, 0, 1/16, none⟩], 127, true, 1, none⟩
      (SysEvC.frame ⟨16, 0, none, 0⟩)
      = ⟨[⟨69, 0, 1, 0, 1/16, none⟩, ⟨81, 1, 2, 129/16, 65/8, none⟩],
         [⟨69, 0, 1, 0, 1/16, none⟩, ⟨81, 1, 2, 129/16, 65/8, none⟩], 0, true, 2, none⟩ := by
    rw [sysStep_frame_silent false true 120 4 8 _ ⟨16, 0, none, 0⟩ 0 npv_16
      (by norm_num) rfl]
    rw [boundaryBlock_fire_dispatch false (totalCells 4 8) 0 _ (by decide) (by simp) rfl]
  refine ⟨?_, ?_, ?_⟩
  · rw [sysRunR, hmap4]
    simp only [sysRun]
    rw [h1, h2, h3, h4]
  · rw [sysRunR, hmap4]
    simp only [sysRun]
    rw [h1, h2, h3, h4]
  · rw [sysRunR, hmap]
    simp only [sysRun]
    rw [h1, h2, h3, h4, h5, h6]

/-- Witness for C9: the concrete three-note merge instance. -/
theorem c9_noteCombiner_witness :
    combineNotes [⟨60, 0, 1, 0, 1, none⟩, ⟨60, 1, 2, 1, 2, none⟩, ⟨64, 2, 3, 2, 3, none⟩]
      = [⟨60, 0, 2, 0, 2, none⟩, ⟨64, 2, 3, 2, 3, none⟩] :=
  (c9_noteCombiner []).2.2
